import Mathlib

/-!
A shallow embedding in Lean 4 of the Restaurant Crawl Planner repository
(`src/agent.py`, `src/app.py`): the tool functions `calculate_crawl_timing`,
`search_restaurants`, `get_cuisine_recommendations`, the `chat` response
normalisation and rolling history update, and the UI helper
`render_chat_html`, together with theorems about them.

External effects (the Tavily search API call, the LLM invocation, wall-clock
time) are modelled as explicit parameters; Python values that can flow through
the code (`None`, strings, ints, lists, dicts) are modelled by an inductive
type with Python truthiness.
-/

set_option maxRecDepth 100000

namespace Crawl

/-- Python's substring test `needle in hay` on strings. -/
def pyIn (needle hay : String) : Bool :=
  hay.data.tails.any (fun t => needle.data.isPrefixOf t)

/-- Python's `str.lower` on one character, on every codepoint whose lowercase
form contains an ASCII character: `A`-`Z` lower to `a`-`z`, `İ` (U+0130)
lowers to `i` followed by the combining dot U+0307, and the Kelvin sign
U+212A lowers to `k`.  A scan of the full Unicode table confirms these are
the only codepoints with ASCII in their Python lowercase (and U+0130 the only
multi-character expansion); every other codepoint lowers to non-ASCII
characters and is left unchanged here, which cannot affect the position of
any ASCII substring of the lowercased string (the only use made of it). -/
def pyLowerChar (c : Char) : List Char :=
  if 65 ≤ c.toNat ∧ c.toNat ≤ 90 then [Char.ofNat (c.toNat + 32)]
  else if c.toNat = 0x130 then [Char.ofNat 0x69, Char.ofNat 0x307]
  else if c.toNat = 0x212A then [Char.ofNat 0x6B]
  else [c]

/-- Python's `s.lower()`, as the character-wise map above. -/
def pyLower (s : String) : String := ⟨s.data.flatMap pyLowerChar⟩

/-- Python's `f"{n:02d}"` zero padding for the minute field. -/
def pad2 (n : Nat) : String :=
  if n < 10 then "0" ++ toString n else toString n

/-- A single-quote character, kept out of string literals. -/
def sq : String := String.singleton (Char.ofNat 39)

/-- `s` begins with the string `pre` (Python's `s.startswith(pre)`). -/
def beginsWith (s pre : String) : Bool := pre.data.isPrefixOf s.data

/-- Python's slice `s[:n]`: the first `n` characters (code points) of `s`. -/
def pySlice (s : String) (n : Nat) : String := ⟨s.data.take n⟩

/-- Concatenation of a list of strings, in order. -/
def strConcat (l : List String) : String := l.foldr (fun a b => a ++ b) ""

/-! ## `calculate_crawl_timing` (src/agent.py lines 112-160)

One scheduled stop, recording the state of the running 24-hour clock
(`current_hour`, `current_min`) at the moment the stop is printed together
with the rendered 12-hour fields (`display_hour`, `am_pm`) and the
per-stop duration in minutes. -/
structure Stop where
  hour24 : Nat
  minute : Nat
  displayHour : Nat
  amPm : String
  durationMins : Nat
deriving DecidableEq, Repr

/-- `total_hours = 5 if "half" in duration.lower() else 10` (lines 125-131). -/
def crawlTotalHours (duration : String) : Nat :=
  if pyIn "half" (pyLower duration) then 5 else 10

/-- The `activity` label chosen on the same `"half"` test (lines 125-132). -/
def crawlActivity (duration : String) : String :=
  if pyIn "half" (pyLower duration) then "Half-Day Food Crawl" else "Full-Day Food Crawl"

/-- `current_hour = 10 if "full" in duration.lower() else 11` (line 137).
Note this tests `"full"`, not the complement of the `"half"` test above. -/
def crawlStartHour (duration : String) : Nat :=
  if pyIn "full" (pyLower duration) then 10 else 11

/-- `stop_duration = int(time_per_stop * 60)` where
`time_per_stop = total_hours / num_stops` (lines 134, 141).  Python computes
this in double-precision floats; for `total_hours ∈ {5, 10}` the value
`int((total_hours / n) * 60)` coincides with natural floor division
`(total_hours * 60) / n` for every `n ≥ 1` (for `n > 600` both are `0`). -/
def stopDuration (duration : String) (n : Nat) : Nat :=
  (crawlTotalHours duration * 60) / n

/-- The `for i in range(1, num_stops + 1)` loop of lines 140-155, carrying
`(current_hour, current_min)`.  Each iteration records the displayed stop,
then advances the clock by `stop_duration` minutes; the trailing
`while current_min >= 60` normalisation is the div/mod update below. -/
def crawlLoop (d : Nat) : Nat → Nat → Nat → List Stop
  | 0, _, _ => []
  | Nat.succ k, h, m =>
    let dispH0 := if h ≤ 12 then h else h - 12
    let dispH := if dispH0 = 0 then 12 else dispH0
    let ap := if h < 12 then "AM" else "PM"
    { hour24 := h, minute := m, displayHour := dispH, amPm := ap, durationMins := d } ::
      crawlLoop d k (h + (m + d) / 60) ((m + d) % 60)

/-- All stops printed by `calculate_crawl_timing` for a given duration string
and a (nonnegative) number of stops. -/
def crawlStops (duration : String) (n : Nat) : List Stop :=
  crawlLoop (stopDuration duration n) n (crawlStartHour duration) 0

/-- The line `f"Stop {i}: {display_hour}:{current_min:02d} {am_pm} (Duration: {stop_duration} mins)\n"`
(line 149): the display hour is unpadded, the minute is zero-padded. -/
def renderStopLine (i : Nat) (s : Stop) : String :=
  "Stop " ++ toString i ++ ": " ++ toString s.displayHour ++ ":" ++ pad2 s.minute ++
    " " ++ s.amPm ++ " (Duration: " ++ toString s.durationMins ++ " mins)\n"

/-- Concatenation of the stop lines, numbering from `i`. -/
def renderStops (i : Nat) : List Stop → String
  | [] => ""
  | s :: rest => renderStopLine i s ++ renderStops (i + 1) rest

/-- `calculate_crawl_timing(duration, num_stops)` (lines 112-160).  The body is
wrapped in `try/except Exception as e: return f"Error calculating timing: {str(e)}"`;
the only statement that can raise is the division `total_hours / num_stops`
at `num_stops = 0`, where Python raises `ZeroDivisionError("division by zero")`.
For negative `num_stops` the division succeeds and `range(1, num_stops + 1)`
is empty, so only the header is produced (`Int.toNat` of a negative is `0`). -/
def calculate_crawl_timing (duration : String) (num_stops : Int) : String :=
  if num_stops = 0 then
    "Error calculating timing: " ++ "division by zero"
  else
    crawlActivity duration ++ " Schedule (" ++ toString num_stops ++ " stops):\n\n" ++
      renderStops 1 (crawlStops duration num_stops.toNat)

/-! ## `chat` (src/agent.py lines 254-326)

The global `chat_history` is a list of `(role, content)` string pairs.  After
the agent call, `chat` appends the turn (lines 312-315) and truncates to the
last 20 entries (lines 317-319). -/

/-- Lines 312-315: `chat_history` after the conditional append of the new
`("human", user_input)` and `("assistant", output)` pair of entries, before
truncation.  `output` is a (possibly empty) string at this point, so Python's
truthiness test `if output` is `output ≠ ""`. -/
def appendedHistory (history : List (String × String)) (userInput output : String) :
    List (String × String) :=
  if output ≠ "" ∧ output ≠ "No response generated" then
    history ++ [("human", userInput), ("assistant", output)]
  else history

/-- Lines 312-319: the new value of the global `chat_history` after a call of
`chat` that reached the history-update block: append, then
`chat_history = chat_history[-20:]` when more than 20 entries remain. -/
def updateChatHistory (history : List (String × String)) (userInput output : String) :
    List (String × String) :=
  let h1 := appendedHistory history userInput output
  if 20 < h1.length then h1.drop (h1.length - 20) else h1

/-- A Python value that can appear as the agent executor's result or inside
it: `None`, a string, an int, or a list. -/
inductive PyVal where
  | vNone
  | vStr (s : String)
  | vInt (n : Int)
  | vList (xs : List PyVal)

/-- Python truthiness (`if output:`) for the modelled values. -/
def pyTruthy : PyVal → Bool
  | .vNone => false
  | .vStr s => s ≠ ""
  | .vInt n => n ≠ 0
  | .vList [] => false
  | .vList (_ :: _) => true

mutual

/-- Python's `repr` for the modelled values (escaping inside string reprs is
not modelled; no theorem depends on the exact repr text). -/
def pyRepr : PyVal → String
  | .vNone => "None"
  | .vStr s => sq ++ s ++ sq
  | .vInt n => toString n
  | .vList xs => "[" ++ String.intercalate ", " (pyReprList xs) ++ "]"

/-- `repr` of each element of a list value. -/
def pyReprList : List PyVal → List String
  | [] => []
  | v :: vs => pyRepr v :: pyReprList vs

end

/-- Python's `str` conversion for the modelled values. -/
def pyStr : PyVal → String
  | .vStr s => s
  | v => pyRepr v

/-- `isinstance(v, str)`. -/
def isStrVal : PyVal → Bool
  | .vStr _ => true
  | _ => false

/-- `d.get(k, default)` on a dict modelled as an association list. -/
def dictGet (entries : List (String × PyVal)) (k : String) (dflt : PyVal) : PyVal :=
  match entries.find? (fun p => p.1 = k) with
  | some p => p.2
  | none => dflt

/-- The value `response` produced by `agent_executor.invoke` (line 293):
`None`, a dict, or any other object.  For a non-dict object,
`outputAttr = some v` models `hasattr(response, 'output')` with
`response.output = v`, and `strForm` models `str(response)`. -/
inductive AgentResponse where
  | respNone
  | respDict (entries : List (String × PyVal))
  | respObj (outputAttr : Option PyVal) (strForm : String)

/-- Lines 295-304: the intermediate `output` value before the final
string/truthiness check. -/
def rawOutput : AgentResponse → PyVal
  | .respNone => .vStr "No response was generated. Please try again."
  | .respDict entries =>
    let o := dictGet entries "output" (.vStr "")
    if pyTruthy o then o
    else .vStr ("I didn" ++ sq ++ "t get a proper response. Could you rephrase your question?")
  | .respObj (some .vNone) strForm => .vStr strForm
  | .respObj (some v) _ => .vStr (pyStr v)
  | .respObj none strForm => .vStr strForm

/-- Lines 295-307: `output` after
`if not output or not isinstance(output, str): output = "I'm having trouble …"`. -/
def normalizeOutput (resp : AgentResponse) : String :=
  match rawOutput resp with
  | .vStr s =>
    if s = "" then "I" ++ sq ++ "m having trouble understanding. Could you rephrase your question?"
    else s
  | _ => "I" ++ sq ++ "m having trouble understanding. Could you rephrase your question?"

/-- Lines 292-310: the `output` string of the inner `try`, where `.error e`
models `agent_executor.invoke` raising an exception with message `e`
(line 309-310) and `.ok resp` models it returning `resp`. -/
def chatOutput (invokeResult : Except String AgentResponse) : String :=
  match invokeResult with
  | .error e => "I encountered an error: " ++ e ++ ". Could you please rephrase your question?"
  | .ok resp => normalizeOutput resp

/-- Line 321: `return output if output else "I'm not sure how to respond to that. Could you rephrase?"`. -/
def chatReturn (invokeResult : Except String AgentResponse) : String :=
  let o := chatOutput invokeResult
  if o = "" then "I" ++ sq ++ "m not sure how to respond to that. Could you rephrase?" else o

/-! ## `search_restaurants` (src/agent.py lines 39-80)

One element of the list returned by the Tavily search call: a dict with
optional `title` / `content` / `url` keys, or any non-dict value (which the
formatting loop skips while still advancing the enumeration index). -/
inductive SearchItem where
  | dict (title content url : Option String)
  | nonDict
deriving DecidableEq

/-- `True` exactly for the dict elements. -/
def SearchItem.isDict : SearchItem → Bool
  | .dict _ _ _ => true
  | .nonDict => false

/-- Line 54: `query = f"best {cuisine} restaurants in {city} {budget} budget popular food places"`. -/
def searchQuery (city cuisine budget : String) : String :=
  "best " ++ cuisine ++ " restaurants in " ++ city ++ " " ++ budget ++
    " budget popular food places"

/-- Line 67: the header of the formatted results. -/
def searchHeader (city cuisine budget : String) : String :=
  "Restaurant search results for " ++ cuisine ++ " in " ++ city ++ " (" ++ budget ++
    " budget):\n\n"

/-- Lines 70-74: the entry a dict element contributes at index `i`, with the
defaults of `.get` and the `content[:200]` truncation; a non-dict element
contributes nothing. -/
def renderSearchItem (i : Nat) : SearchItem → Option String
  | .dict title content url =>
    some (toString i ++ ". " ++ title.getD "Restaurant" ++ "\n   " ++
      pySlice (content.getD "") 200 ++ "...\n   Source: " ++ url.getD "" ++ "\n\n")
  | .nonDict => none

/-- The `for i, result in enumerate(results[:5], 1)` loop of lines 69-74,
accumulating the formatted entries; non-dict elements add nothing but still
advance the enumeration index `i`. -/
def renderSearchLoop (i : Nat) : List SearchItem → String
  | [] => ""
  | item :: rest =>
    match renderSearchItem i item with
    | some s => s ++ renderSearchLoop (i + 1) rest
    | none => renderSearchLoop (i + 1) rest

/-- Line 77: the message for a falsy (here: empty-list) result. -/
def noResultsMsg (city cuisine : String) : String :=
  "No specific results found, but " ++ city ++ " is known for great " ++ cuisine ++ " options!"

/-- `search_restaurants(city, cuisine, budget)` (lines 39-80), with the Tavily
call `tavily_tool.invoke({"query": query})` modelled by the function `api`
from query strings to result lists (the result is always a list here; the
`isinstance(results, list)` test of line 68 is therefore true, and Python
truthiness of a list is non-emptiness).  The exception branch of lines 79-80
is not modelled: none of the modelled operations raises. -/
def search_restaurants (city cuisine budget : String)
    (api : String → List SearchItem) : String :=
  let results := api (searchQuery city cuisine budget)
  if results.isEmpty then noResultsMsg city cuisine
  else searchHeader city cuisine budget ++ renderSearchLoop 1 (results.take 5)

/-! ## `get_cuisine_recommendations` (src/agent.py lines 82-110) -/

/-- The mojibake character sequence standing before rupee amounts in
`src/agent.py` (codepoints U+201A U+00C7 U+03C0, exactly as in the file). -/
def rup : String := "‚Çπ"

/-- The description of the `"street food"` key (line 94). -/
def streetFoodDesc : String := "Popular dishes: Pani Puri, Vada Pav, Pav Bhaji, Chaat, Momos, Rolls, Samosas. Best time: Evening (5 PM - 9 PM). Budget: " ++ rup ++ "50-200 per person."

/-- The description of the `"vegan"` key (line 95). -/
def veganDesc : String := "Popular dishes: Buddha Bowls, Quinoa Salads, Veggie Wraps, Smoothie Bowls, Plant-based Burgers, Tofu Dishes. Best time: Lunch (12 PM - 2 PM) or Dinner (7 PM - 9 PM). Budget: " ++ rup ++ "300-800 per person."

/-- The description of the `"fine dining"` key (line 96). -/
def fineDiningDesc : String := "Multi-course meals, Chef" ++ sq ++ "s specials, Wine pairings, Signature dishes, Tasting menus. Best time: Dinner (8 PM - 10 PM). Budget: " ++ rup ++ "2000-5000+ per person. Reservation recommended."

/-- The description of the `"indian"` key (line 97). -/
def indianDesc : String := "Popular dishes: Butter Chicken, Biryani, Tandoori items, Dal Makhani, Paneer dishes, Dosas, Thalis. Best time: Lunch (12 PM - 3 PM) or Dinner (7 PM - 10 PM). Budget varies by restaurant type."

/-- The description of the `"italian"` key (line 98). -/
def italianDesc : String := "Popular dishes: Pizza, Pasta (Carbonara, Alfredo), Risotto, Tiramisu, Gelato. Best time: Lunch (12 PM - 3 PM) or Dinner (7 PM - 10 PM). Budget: " ++ rup ++ "500-1500 per person."

/-- The description of the `"chinese"` key (line 99). -/
def chineseDesc : String := "Popular dishes: Dim Sum, Noodles, Fried Rice, Manchurian, Spring Rolls, Soups. Best time: Lunch (12 PM - 3 PM) or Dinner (7 PM - 10 PM). Budget: " ++ rup ++ "300-1000 per person."

/-- The description of the `"japanese"` key (line 100). -/
def japaneseDesc : String := "Popular dishes: Sushi, Ramen, Tempura, Teriyaki, Bento Boxes. Best time: Lunch (12 PM - 2 PM) or Dinner (7 PM - 9 PM). Budget: " ++ rup ++ "800-2000 per person."

/-- The description of the `"thai"` key (line 101). -/
def thaiDesc : String := "Popular dishes: Pad Thai, Tom Yum Soup, Green Curry, Som Tam, Spring Rolls. Best time: Lunch or Dinner. Budget: " ++ rup ++ "400-1200 per person."

/-- The description of the `"mediterranean"` key (line 102). -/
def mediterraneanDesc : String := "Popular dishes: Hummus, Falafel, Shawarma, Greek Salad, Kebabs. Best time: Lunch or Dinner. Budget: " ++ rup ++ "400-1200 per person."

/-- The `cuisine_data` dict of lines 93-103, as an association list in
declaration order (Python dicts iterate in insertion order). -/
def cuisine_data : List (String × String) :=
  [("street food", streetFoodDesc),
   ("vegan", veganDesc),
   ("fine dining", fineDiningDesc),
   ("indian", indianDesc),
   ("italian", italianDesc),
   ("chinese", chineseDesc),
   ("japanese", japaneseDesc),
   ("thai", thaiDesc),
   ("mediterranean", mediterraneanDesc)]

/-- Line 110: the fallback for a cuisine type matching no key. -/
def generalRecommendation (cuisine_type : String) : String :=
  "General recommendations for " ++ cuisine_type ++
    ": Explore local specialties, ask for chef" ++ sq ++
    "s recommendations, and try signature dishes. Budget accordingly and check reviews online."

/-- `get_cuisine_recommendations(cuisine_type)` (lines 82-110): the
`for key in cuisine_data: if key in cuisine_lower` loop returns on the first
key (in declaration order) that is a substring of the lowercased input. -/
def get_cuisine_recommendations (cuisine_type : String) : String :=
  match cuisine_data.find? (fun p => pyIn p.1 (pyLower cuisine_type)) with
  | some p => "Recommendations for " ++ cuisine_type ++ ":\n" ++ p.2
  | none => generalRecommendation cuisine_type

/-! ## `render_chat_html` (src/app.py lines 268-305)

A message of `st.session_state.messages`, a dict with `role`, `content` and
`ts` keys read through `.get` with defaults `"user"` / `""` / `time.time()`.
The field `tsStr` holds the already formatted string
`time.strftime("%H:%M", time.localtime(ts))` of line 287, abstracting the
wall-clock conversion. -/
structure ChatMsg where
  role : Option String
  content : Option String
  tsStr : String
deriving DecidableEq

/-- Line 290, `content.replace("\n", "<br>")`, on the character list. -/
def replaceNLChars : List Char → List Char
  | [] => []
  | c :: cs =>
    if c = '\n' then '<' :: 'b' :: 'r' :: '>' :: replaceNLChars cs
    else c :: replaceNLChars cs

/-- Line 290: `safe_content = content.replace("\n", "<br>")`. -/
def replaceNewlines (s : String) : String := ⟨replaceNLChars s.data⟩

/-- Line 271 / 282: the opening `<div id='chatbox'>` part. -/
def chatboxOpen : String := "<div id=" ++ sq ++ "chatbox" ++ sq ++ ">"

/-- Lines 293-297: the bubble of a user message. -/
def userBubble (safeContent tsStr : String) : String :=
  "<div style=" ++ sq ++ "display:flex; justify-content:flex-end;" ++ sq ++ ">" ++
    "<div class=" ++ sq ++ "msg-user" ++ sq ++ ">" ++ safeContent ++
    "<div class=" ++ sq ++ "meta" ++ sq ++ ">You • " ++ tsStr ++ "</div></div></div>"

/-- Lines 299-303: the bubble of any non-user message. -/
def assistantBubble (safeContent tsStr : String) : String :=
  "<div style=" ++ sq ++ "display:flex; justify-content:flex-start;" ++ sq ++ ">" ++
    "<div class=" ++ sq ++ "msg-assistant" ++ sq ++ ">" ++ safeContent ++
    "<div class=" ++ sq ++ "meta-assistant" ++ sq ++ ">AI Chef • " ++ tsStr ++ "</div></div></div>"

/-- Lines 283-303: the HTML fragment one message contributes. -/
def bubbleOf (m : ChatMsg) : String :=
  let role := m.role.getD "user"
  let safeContent := replaceNewlines (m.content.getD "")
  if role = "user" then userBubble safeContent m.tsStr
  else assistantBubble safeContent m.tsStr

/-- Lines 270-280: the welcome placeholder returned for an empty message
list, `"\n".join(html_parts)` over the eight literal parts. -/
def welcomeHtml : String :=
  String.intercalate "\n"
    [chatboxOpen,
     "<div style=" ++ sq ++ "text-align:center; padding:60px 20px; color:#718096;" ++ sq ++ ">",
     "<div style=" ++ sq ++ "font-size:48px; margin-bottom:20px;" ++ sq ++ ">🍽️</div>",
     "<div style=" ++ sq ++ "font-size:18px; font-weight:600; margin-bottom:10px;" ++ sq ++ ">Welcome to Restaurant Crawl Planner!</div>",
     "<div style=" ++ sq ++ "font-size:14px;" ++ sq ++ ">Tell me your city, cuisine preference, and budget to get started.</div>",
     "<div style=" ++ sq ++ "font-size:13px; margin-top:15px; color:#a0aec0;" ++ sq ++ ">Example: " ++ sq ++ "Plan a half-day street food crawl in Mumbai with low budget" ++ sq ++ "</div>",
     "</div>",
     "</div>"]

/-- `render_chat_html(messages)` (lines 268-305): the welcome placeholder for
an empty list, otherwise `"\n".join` of the opening div, one bubble appended
per message by the `for msg in messages` loop, and the closing `</div>`. -/
def render_chat_html (messages : List ChatMsg) : String :=
  if messages.isEmpty then welcomeHtml
  else
    let parts := messages.foldl (fun acc m => acc ++ [bubbleOf m]) [chatboxOpen]
    String.intercalate "\n" (parts ++ ["</div>"])

/-! ## Theorems -/

/-- C1, counterexample: for `duration = "day"` (which contains neither
`"half"` nor `"full"`) and `num_stops = 1`, the budget is the full-day
10 hours, yet the first stop is displayed at 11:00 AM, not 10:00 AM as the
claim states for the non-`"half"` case. -/
theorem c1_counterexample :
    pyIn "half" (pyLower "day") = false ∧
    crawlTotalHours "day" = 10 ∧
    (crawlStops "day" 1).head? = some ⟨11, 0, 11, "AM", 600⟩ ∧
    calculate_crawl_timing "day" 1 =
      "Full-Day Food Crawl Schedule (1 stops):\n\nStop 1: 11:00 AM (Duration: 600 mins)\n" := by
  decide

/-- C1, amended: for every duration string and `num_stops ≥ 1`, the
total-hours budget is 5 when the lowercased duration contains `"half"` and
10 otherwise, while the first stop is displayed at 10:00 AM when the
lowercased duration contains `"full"` and at 11:00 AM otherwise (the two
string tests are independent). -/
theorem c1_budget_and_first_stop (duration : String) (n : Nat) (hn : 1 ≤ n) :
    crawlTotalHours duration = (if pyIn "half" (pyLower duration) then 5 else 10) ∧
    (crawlStops duration n).head? =
      some { hour24 := if pyIn "full" (pyLower duration) then 10 else 11,
             minute := 0,
             displayHour := if pyIn "full" (pyLower duration) then 10 else 11,
             amPm := "AM",
             durationMins := stopDuration duration n } := by
  refine ⟨rfl, ?_⟩
  obtain ⟨k, rfl⟩ : ∃ k, n = k + 1 := ⟨n - 1, by omega⟩
  unfold crawlStops crawlLoop crawlStartHour
  by_cases hf : pyIn "full" (pyLower duration) = true <;> simp [hf]

/-- Witness for `c1_budget_and_first_stop` at `duration = "half-day"`,
`num_stops = 2`. -/
theorem c1_witness :
    crawlTotalHours "half-day" = (if pyIn "half" (pyLower "half-day") then 5 else 10) ∧
    (crawlStops "half-day" 2).head? =
      some { hour24 := if pyIn "full" (pyLower "half-day") then 10 else 11,
             minute := 0,
             displayHour := if pyIn "full" (pyLower "half-day") then 10 else 11,
             amPm := "AM",
             durationMins := stopDuration "half-day" 2 } :=
  c1_budget_and_first_stop "half-day" 2 (by decide)

/-- C2: after the history-update block of `chat`, the history holds at most
20 entries, and whenever the appended (pre-truncation) history exceeds 20
entries, the retained history is exactly its last 20 entries in order (a
length-20 suffix). -/
theorem chat_history_capped (h : List (String × String)) (u o : String) :
    (updateChatHistory h u o).length ≤ 20 ∧
    (20 < (appendedHistory h u o).length →
      updateChatHistory h u o =
        (appendedHistory h u o).drop ((appendedHistory h u o).length - 20) ∧
      (updateChatHistory h u o).length = 20 ∧
      List.IsSuffix (updateChatHistory h u o) (appendedHistory h u o)) := by
  simp only [updateChatHistory]
  by_cases hl : 20 < (appendedHistory h u o).length
  · rw [if_pos hl]
    exact ⟨by rw [List.length_drop]; omega,
           fun _ => ⟨rfl, by rw [List.length_drop]; omega, List.drop_suffix _ _⟩⟩
  · rw [if_neg hl]
    exact ⟨by omega, fun hgt => absurd hgt hl⟩

/-- Witness for `chat_history_capped` on a 21-entry history, where the
appended history has 23 entries and truncation occurs. -/
theorem c2_witness :
    (updateChatHistory (List.replicate 21 ("human", "hi")) "u" "o").length = 20 ∧
    List.IsSuffix (updateChatHistory (List.replicate 21 ("human", "hi")) "u" "o")
      (appendedHistory (List.replicate 21 ("human", "hi")) "u" "o") := by
  have h := (chat_history_capped (List.replicate 21 ("human", "hi")) "u" "o").2 (by decide)
  exact ⟨h.2.1, h.2.2⟩

/-- C4: `calculate_crawl_timing` is a total function into strings (its Lean
type), and at `num_stops = 0`, where Python's division raises
`ZeroDivisionError`, the `except` branch yields a string beginning
`"Error calculating timing:"`. -/
theorem calculate_crawl_timing_zero_stops (duration : String) (num_stops : Int)
    (h : num_stops = 0) :
    beginsWith (calculate_crawl_timing duration num_stops) "Error calculating timing:" = true := by
  subst h
  unfold calculate_crawl_timing
  rw [if_pos rfl]
  decide

/-- Witness for `calculate_crawl_timing_zero_stops` at `duration = "full-day"`. -/
theorem c4_witness :
    beginsWith (calculate_crawl_timing "full-day" 0) "Error calculating timing:" = true :=
  calculate_crawl_timing_zero_stops "full-day" 0 rfl

/-- C6: when `agent_executor.invoke` raises an exception with message `e`,
`chat` returns `"I encountered an error: " ++ e ++ ". Could you please
rephrase your question?"` instead of propagating the exception. -/
theorem chat_invoke_exception_message (e : String) :
    chatReturn (Except.error e) =
      "I encountered an error: " ++ e ++ ". Could you please rephrase your question?" := by
  have hne : ("I encountered an error: " ++ e ++
      ". Could you please rephrase your question?") ≠ "" := by
    intro hc
    have hd := congrArg String.length hc
    rw [String.length_append, String.length_append] at hd
    have h1 : ("I encountered an error: " : String).length ≠ 0 := by decide
    have h3 : ("" : String).length = 0 := rfl
    omega
  simp [chatReturn, chatOutput, hne]

/-- The schedule loop emits exactly one stop per iteration. -/
theorem crawlLoop_length (d : Nat) :
    ∀ (k h m : Nat), (crawlLoop d k h m).length = k := by
  intro k
  induction k with
  | zero => intro h m; rfl
  | succ k ih => intro h m; simp [crawlLoop, ih]

/-- Every stop the loop emits carries the loop's fixed per-stop duration. -/
theorem crawlLoop_durationMins (d : Nat) :
    ∀ (k h m : Nat), ∀ s ∈ crawlLoop d k h m, s.durationMins = d := by
  intro k
  induction k with
  | zero => intro h m s hs; simp [crawlLoop] at hs
  | succ k ih =>
    intro h m s hs
    rw [crawlLoop] at hs
    rcases List.mem_cons.mp hs with rfl | hs
    · rfl
    · exact ih _ _ s hs

/-- Invariant of the schedule loop: if the clock starts at minute ≤ 59, hour
≥ 10, and the remaining minutes fit under the 20:59 line, then every emitted
stop shows a minute in 0-59, an hour in 10-20, and display fields computed
from that hour. -/
theorem crawlLoop_clock_inv (d : Nat) :
    ∀ (k h m : Nat), m ≤ 59 → 10 ≤ h → h * 60 + m + k * d ≤ 1259 + d →
      ∀ s ∈ crawlLoop d k h m,
        s.minute ≤ 59 ∧ 10 ≤ s.hour24 ∧ s.hour24 ≤ 20 ∧
        s.displayHour = (if s.hour24 ≤ 12 then s.hour24 else s.hour24 - 12) ∧
        s.amPm = (if s.hour24 < 12 then "AM" else "PM") := by
  intro k
  induction k with
  | zero => intro h m _ _ _ s hs; simp [crawlLoop] at hs
  | succ k ih =>
    intro h m hm hh hbound s hs
    rw [Nat.succ_mul] at hbound
    rw [crawlLoop] at hs
    rcases List.mem_cons.mp hs with rfl | hs
    · refine ⟨hm, hh, show h ≤ 20 by omega, ?_, rfl⟩
      have hne : (if h ≤ 12 then h else h - 12) ≠ 0 := by split <;> omega
      simp only [hne, if_false]
    · refine ih (h + (m + d) / 60) ((m + d) % 60) ?_ ?_ ?_ s hs
      · exact Nat.le_of_lt_succ (Nat.mod_lt _ (by omega))
      · exact le_trans hh (Nat.le_add_right _ _)
      · have hdm : (h + (m + d) / 60) * 60 + (m + d) % 60 = h * 60 + m + d := by
          rw [Nat.add_mul]
          have := Nat.div_add_mod (m + d) 60
          omega
        omega

/-- Per-stop duration never exceeds the minute budget when multiplied by the
number of stops. -/
theorem stopDuration_mul_le (duration : String) (n : Nat) :
    n * stopDuration duration n ≤ crawlTotalHours duration * 60 := by
  rw [Nat.mul_comm]
  exact Nat.div_mul_le_self _ _

/-- C3: every stop of every schedule (with `num_stops ≥ 1`) shows a minute
value in 0-59 (overflow having been carried into the hour) and a correct
12-hour rendering of the running 24-hour clock: the displayed hour lies in
1-12, agrees with the 24-hour value modulo 12, and the AM marker appears
exactly when the 24-hour value is below 12. -/
theorem crawl_clock_correct (duration : String) (n : Nat) (hn : 1 ≤ n) :
    ∀ s ∈ crawlStops duration n,
      s.minute ≤ 59 ∧ 1 ≤ s.displayHour ∧ s.displayHour ≤ 12 ∧
      s.displayHour % 12 = s.hour24 % 12 ∧
      (s.amPm = "AM" ↔ s.hour24 < 12) := by
  intro s hs
  have hstart : crawlStartHour duration ≤ 11 := by unfold crawlStartHour; split <;> omega
  have hstart10 : 10 ≤ crawlStartHour duration := by unfold crawlStartHour; split <;> omega
  have hT : crawlTotalHours duration ≤ 10 := by unfold crawlTotalHours; split <;> omega
  have hd0 : n * stopDuration duration n ≤ crawlTotalHours duration * 60 :=
    stopDuration_mul_le duration n
  have hbound : crawlStartHour duration * 60 + 0 + n * stopDuration duration n ≤
      1259 + stopDuration duration n := by
    rcases Nat.eq_zero_or_pos (stopDuration duration n) with h0 | h1
    · rw [h0, Nat.mul_zero]; omega
    · omega
  obtain ⟨h59, h10, h20, hdisp, hap⟩ :=
    crawlLoop_clock_inv (stopDuration duration n) n (crawlStartHour duration) 0
      (by omega) hstart10 hbound s hs
  have hPM : ("PM" : String) ≠ "AM" := by decide
  refine ⟨h59, ?_, ?_, ?_, ?_⟩
  · rw [hdisp]; split <;> omega
  · rw [hdisp]; split <;> omega
  · rw [hdisp]; split <;> omega
  · rw [hap]
    by_cases hlt : s.hour24 < 12 <;> simp [hlt, hPM]

/-- Witness for `crawl_clock_correct` at the first stop of the two-stop
full-day schedule. -/
theorem c3_witness :
    (⟨10, 0, 10, "AM", 300⟩ : Stop).minute ≤ 59 ∧
    1 ≤ (⟨10, 0, 10, "AM", 300⟩ : Stop).displayHour ∧
    (⟨10, 0, 10, "AM", 300⟩ : Stop).displayHour ≤ 12 ∧
    (⟨10, 0, 10, "AM", 300⟩ : Stop).displayHour % 12 = (⟨10, 0, 10, "AM", 300⟩ : Stop).hour24 % 12 ∧
    ((⟨10, 0, 10, "AM", 300⟩ : Stop).amPm = "AM" ↔ (⟨10, 0, 10, "AM", 300⟩ : Stop).hour24 < 12) :=
  crawl_clock_correct "full-day" 2 (by decide) ⟨10, 0, 10, "AM", 300⟩ (by decide)

/-- C10: every schedule with `num_stops ≥ 1` lists exactly `num_stops` stops,
all with the identical truncated duration `int((total_hours / num_stops) * 60)`
minutes, whose total never exceeds the `total_hours * 60` minute budget — and
the total can fall strictly short when the division truncates, as at 7 stops
over a full day (7 × 85 = 595 < 600). -/
theorem crawl_even_division (duration : String) (n : Nat) (hn : 1 ≤ n) :
    (crawlStops duration n).length = n ∧
    (∀ s ∈ crawlStops duration n, s.durationMins = stopDuration duration n) ∧
    n * stopDuration duration n ≤ crawlTotalHours duration * 60 ∧
    7 * stopDuration "full-day" 7 < crawlTotalHours "full-day" * 60 :=
  ⟨crawlLoop_length _ _ _ _,
   fun s hs => crawlLoop_durationMins _ _ _ _ s hs,
   stopDuration_mul_le duration n,
   by decide⟩

/-- Witness for `crawl_even_division` at the 7-stop full-day schedule. -/
theorem c10_witness :
    (crawlStops "full-day" 7).length = 7 ∧
    (∀ s ∈ crawlStops "full-day" 7, s.durationMins = stopDuration "full-day" 7) ∧
    7 * stopDuration "full-day" 7 ≤ crawlTotalHours "full-day" * 60 ∧
    7 * stopDuration "full-day" 7 < crawlTotalHours "full-day" * 60 :=
  crawl_even_division "full-day" 7 (by decide)

/-- C5: whatever the agent executor produces, `chat`'s inner block yields a
non-empty string (never `None` — the Lean return type is `String` — and never
`""`): a `None` result, a dict whose `output` entry is missing or falsy, and
a truthy non-string `output` entry are each replaced by their fixed
placeholder sentence. -/
theorem chat_output_never_empty (r : Except String AgentResponse) :
    chatReturn r ≠ "" ∧
    chatReturn (Except.ok AgentResponse.respNone) =
      "No response was generated. Please try again." ∧
    (∀ es : List (String × PyVal),
        pyTruthy (dictGet es "output" (PyVal.vStr "")) = false →
        chatReturn (Except.ok (AgentResponse.respDict es)) =
          "I didn" ++ sq ++ "t get a proper response. Could you rephrase your question?") ∧
    (∀ es : List (String × PyVal), ∀ v : PyVal,
        dictGet es "output" (PyVal.vStr "") = v → pyTruthy v = true → isStrVal v = false →
        chatReturn (Except.ok (AgentResponse.respDict es)) =
          "I" ++ sq ++ "m having trouble understanding. Could you rephrase your question?") := by
  have hfb : ("I" ++ sq ++ "m not sure how to respond to that. Could you rephrase?") ≠ "" := by
    decide
  have hdn : ("I didn" ++ sq ++ "t get a proper response. Could you rephrase your question?") ≠ "" := by
    decide
  have htr : ("I" ++ sq ++ "m having trouble understanding. Could you rephrase your question?") ≠ "" := by
    decide
  refine ⟨?_, by decide, ?_, ?_⟩
  · by_cases h : chatOutput r = ""
    · simp [chatReturn, h, hfb]
    · simp [chatReturn, h]
  · intro es hfalse
    simp [chatReturn, chatOutput, normalizeOutput, rawOutput, hfalse, hdn]
  · intro es v hv htru hstr
    cases v with
    | vNone => simp [pyTruthy] at htru
    | vStr s => simp [isStrVal] at hstr
    | vInt k => simp [chatReturn, chatOutput, normalizeOutput, rawOutput, hv, htru, htr]
    | vList xs => simp [chatReturn, chatOutput, normalizeOutput, rawOutput, hv, htru, htr]

/-- Witness for `chat_output_never_empty`: a dict without an `output` key gets
the fixed placeholder, and the result is non-empty. -/
theorem c5_witness :
    chatReturn (Except.ok (AgentResponse.respDict [])) ≠ "" ∧
    chatReturn (Except.ok (AgentResponse.respDict [])) =
      "I didn" ++ sq ++ "t get a proper response. Could you rephrase your question?" :=
  ⟨(chat_output_never_empty (Except.ok (AgentResponse.respDict []))).1,
   (chat_output_never_empty (Except.ok (AgentResponse.respDict []))).2.2.1 [] (by decide)⟩

/-- C8: `get_cuisine_recommendations` returns the general fallback exactly
when no key of `cuisine_data` occurs in the lowercased input; when the
declaration-order first match `find?` yields `(k, d)`, the result is the
recommendation header followed by that key's description, `k` is a genuine
key of the mapping, and `k` occurs in the lowercased input; and whenever some
key occurs, a first match exists. -/
theorem cuisine_first_match (ct : String) :
    (cuisine_data.all (fun p => !(pyIn p.1 (pyLower ct))) = true →
        get_cuisine_recommendations ct = generalRecommendation ct) ∧
    (∀ k d : String,
        cuisine_data.find? (fun p => pyIn p.1 (pyLower ct)) = some (k, d) →
        get_cuisine_recommendations ct = "Recommendations for " ++ ct ++ ":\n" ++ d ∧
        (k, d) ∈ cuisine_data ∧ pyIn k (pyLower ct) = true) ∧
    (cuisine_data.any (fun p => pyIn p.1 (pyLower ct)) = true →
        ∃ k d : String,
          cuisine_data.find? (fun p => pyIn p.1 (pyLower ct)) = some (k, d)) := by
  refine ⟨?_, ?_, ?_⟩
  · intro hall
    have hnone : cuisine_data.find? (fun p => pyIn p.1 (pyLower ct)) = none := by
      rw [List.find?_eq_none]
      intro x hx
      have := List.all_eq_true.mp hall x hx
      simpa using this
    simp [get_cuisine_recommendations, hnone]
  · intro k d hfind
    refine ⟨?_, List.mem_of_find?_eq_some hfind, ?_⟩
    · simp [get_cuisine_recommendations, hfind]
    · simpa using List.find?_some hfind
  · intro hany
    have hsome : (cuisine_data.find? (fun p => pyIn p.1 (pyLower ct))).isSome := by
      rw [List.find?_isSome]
      simpa using List.any_eq_true.mp hany
    obtain ⟨p, hp⟩ := Option.isSome_iff_exists.mp hsome
    exact ⟨p.1, p.2, by simpa using hp⟩

/-- Witness for `cuisine_first_match` at `cuisine_type = "Italian"`, whose
lowercase form contains the key `"italian"`. -/
theorem c8_witness :
    get_cuisine_recommendations "Italian" =
      "Recommendations for " ++ "Italian" ++ ":\n" ++ italianDesc ∧
    ("italian", italianDesc) ∈ cuisine_data ∧ pyIn "italian" (pyLower "Italian") = true :=
  (cuisine_first_match "Italian").2.1 "italian" italianDesc (by decide)

/-- Appending one element per item via `foldl` is `map`. -/
theorem foldl_append_singleton {α β : Type} (f : α → β) :
    ∀ (l : List α) (acc : List β),
      l.foldl (fun a x => a ++ [f x]) acc = acc ++ l.map f := by
  intro l
  induction l with
  | nil => intro acc; simp
  | cons x xs ih => intro acc; simp [List.foldl, ih]

/-- The replacement of line 290 leaves no newline character behind. -/
theorem replaceNLChars_no_newline : ∀ l : List Char, '\n' ∉ replaceNLChars l := by
  intro l
  induction l with
  | nil => simp [replaceNLChars]
  | cons c cs ih =>
    by_cases hc : c = '\n'
    · rw [replaceNLChars, if_pos hc]
      simp only [List.mem_cons]
      intro hmem
      rcases hmem with h | h | h | h | h
      · exact absurd h (by decide)
      · exact absurd h (by decide)
      · exact absurd h (by decide)
      · exact absurd h (by decide)
      · exact ih h
    · rw [replaceNLChars, if_neg hc]
      simp only [List.mem_cons]
      intro hmem
      rcases hmem with h | h
      · exact hc h.symm
      · exact ih h

/-- C9: the empty message list renders as the fixed welcome placeholder; a
non-empty list renders as the chatbox div holding exactly one bubble per
message in input order; each bubble is the user bubble exactly when the
message's role is `"user"` and the assistant bubble for every other role,
around the newline-replaced content; and replaced content contains no
newline character. -/
theorem render_chat_html_bubbles (msgs : List ChatMsg) :
    render_chat_html [] = welcomeHtml ∧
    (msgs ≠ [] →
      render_chat_html msgs =
        String.intercalate "\n" (chatboxOpen :: (msgs.map bubbleOf ++ ["</div>"]))) ∧
    (∀ m : ChatMsg, bubbleOf m =
        if m.role.getD "user" = "user"
        then userBubble (replaceNewlines (m.content.getD "")) m.tsStr
        else assistantBubble (replaceNewlines (m.content.getD "")) m.tsStr) ∧
    (∀ s : String, '\n' ∉ (replaceNewlines s).data) := by
  refine ⟨rfl, ?_, fun m => rfl, fun s => replaceNLChars_no_newline s.data⟩
  intro hne
  have hemp : msgs.isEmpty = false := by simpa using hne
  simp only [render_chat_html, hemp, Bool.false_eq_true, if_false]
  rw [foldl_append_singleton bubbleOf msgs [chatboxOpen]]
  simp

/-- Witness for `render_chat_html_bubbles` on a one-message list. -/
theorem c9_witness :
    render_chat_html [⟨some "user", some "hi", "12:00"⟩] =
      String.intercalate "\n"
        (chatboxOpen ::
          (([(⟨some "user", some "hi", "12:00"⟩ : ChatMsg)].map bubbleOf) ++ ["</div>"])) :=
  (render_chat_html_bubbles [⟨some "user", some "hi", "12:00"⟩]).2.1 (by simp)

/-- The formatting loop of `search_restaurants` concatenates, in order,
exactly the entries of the dict elements, indexed by their enumeration
position. -/
theorem renderSearchLoop_eq_filterMap :
    ∀ (xs : List SearchItem) (i : Nat),
      renderSearchLoop i xs =
        strConcat ((List.enumFrom i xs).filterMap (fun p => renderSearchItem p.1 p.2)) := by
  intro xs
  induction xs with
  | nil => intro i; rfl
  | cons x rest ih =>
    intro i
    cases x with
    | dict t c u =>
      simp only [renderSearchLoop, renderSearchItem, List.enumFrom, List.filterMap_cons]
      rw [ih]
      rfl
    | nonDict =>
      simp only [renderSearchLoop, renderSearchItem, List.enumFrom, List.filterMap_cons]
      exact ih (i + 1)

/-- The dict elements among the first five of a list form a prefix of all its
dict elements node for node. -/
theorem filter_take_prefix {α : Type} (p : α → Bool) (n : Nat) (l : List α) :
    List.IsPrefix ((l.take n).filter p) (l.filter p) :=
  ⟨(l.drop n).filter p, by rw [← List.filter_append, List.take_append_drop]⟩

/-- C7: `search_restaurants` consults the search API at exactly the query
string `"best {cuisine} restaurants in {city} {budget} budget popular food
places"`; an empty result list yields the fixed no-results sentence; a
non-empty result list yields the header followed by the enumerated entries of
the dict elements among the first five results (a length-≤-5 prefix of the
list's dict elements); and each dict entry embeds the `content` field cut to
its first 200 characters. -/
theorem search_restaurants_shape (city cuisine budget : String)
    (api : String → List SearchItem) :
    (∀ api2 : String → List SearchItem,
        api2 (searchQuery city cuisine budget) = api (searchQuery city cuisine budget) →
        search_restaurants city cuisine budget api2 =
          search_restaurants city cuisine budget api) ∧
    (api (searchQuery city cuisine budget) = [] →
        search_restaurants city cuisine budget api = noResultsMsg city cuisine) ∧
    (∀ rs : List SearchItem, api (searchQuery city cuisine budget) = rs → rs ≠ [] →
        search_restaurants city cuisine budget api =
          searchHeader city cuisine budget ++
            strConcat ((List.enumFrom 1 (rs.take 5)).filterMap
              (fun p => renderSearchItem p.1 p.2)) ∧
        List.IsPrefix ((rs.take 5).filter SearchItem.isDict) (rs.filter SearchItem.isDict) ∧
        ((rs.take 5).filter SearchItem.isDict).length ≤ 5) ∧
    (∀ (i : Nat) (t c u : Option String) (e : String),
        renderSearchItem i (SearchItem.dict t c u) = some e →
        e = toString i ++ ". " ++ t.getD "Restaurant" ++ "\n   " ++
            pySlice (c.getD "") 200 ++ "...\n   Source: " ++ u.getD "" ++ "\n\n" ∧
        (pySlice (c.getD "") 200).length ≤ 200) := by
  refine ⟨?_, ?_, ?_, ?_⟩
  · intro api2 heq
    simp only [search_restaurants, heq]
  · intro hemp
    simp [search_restaurants, hemp, noResultsMsg]
  · intro rs hrs hne
    have hemp : rs.isEmpty = false := by simpa using hne
    refine ⟨?_, filter_take_prefix _ _ _, ?_⟩
    · simp only [search_restaurants, hrs, hemp, Bool.false_eq_true, if_false]
      rw [renderSearchLoop_eq_filterMap]
    · exact le_trans (List.length_filter_le _ _) (List.length_take_le _ _)
  · intro i t c u e he
    refine ⟨(Option.some.inj he).symm, ?_⟩
    show (((c.getD "").data.take 200).length ≤ 200)
    exact List.length_take_le _ _

/-- Witness for `search_restaurants_shape`: an API returning no results
produces the fixed no-results sentence. -/
theorem c7_witness :
    search_restaurants "Mumbai" "street food" "low" (fun _ => []) =
      noResultsMsg "Mumbai" "street food" :=
  (search_restaurants_shape "Mumbai" "street food" "low" (fun _ => [])).2.1 rfl

end Crawl
